import Mathlib

/-!
# Verification of the wgsl-playground hot-reload render loop

Shallow embedding of `src/main.rs` of the wgsl-playground repository.

The program is a live WGSL shader playground: it watches one fragment-shader
file, rebuilds the render pipeline on file-change notifications, and drives a
winit event loop that renders a full-screen triangle, pausing redraws while an
uncaptured GPU error is outstanding.

Modelling conventions:
* GPU / OS handles are opaque records; a `RenderPipeline` keeps the fragment
  source it was built from.
* `f32`/`f64` arithmetic is modelled over `ℚ` (the cursor / resize formulas
  involve only division by the window size and affine maps, which round-trip
  exactly for the algebraic identities proved here).
* Side effects (printing, redraw requests, GPU submissions, sleeping) are
  reified as an `Effect` list returned by each handler.
* Environment inputs that the Rust code reads inside a handler (window inner
  size, scale factor, elapsed clock time, the outcome of the fallible surface
  acquire and of the pipeline rebuild) are passed as parameters of the
  corresponding `LoopEvent` constructor.
* The unbounded file-read retry loop in `create_pipeline` is embedded with
  explicit fuel; running out of fuel (`none`) models non-termination of the
  loop, and the sequence of `read_to_string` outcomes is an oracle
  `ℕ → Option String`.
-/

namespace WgslPlayground

deriving instance DecidableEq for Except

/-- Rust `enum UserEvents { Reload, WGPUError }` (src/main.rs lines 23-27):
the custom events sent through the winit event-loop proxy. -/
inductive UserEvents where
  | Reload
  | WGPUError
deriving DecidableEq, Repr

/-! ## File Change Monitor (`Playground::listen`, lines 89-108) -/

/-- `notify::event::RenameMode`: the payload of `ModifyKind::Name(_)`.
The Rust match binds it with a wildcard, so only its existence matters. -/
inductive RenameMode where
  | Any
  | To
  | From
  | Both
  | Other
deriving DecidableEq, Repr

/-- `notify::event::DataChange`: payload of `ModifyKind::Data(_)`. -/
inductive DataChange where
  | Any
  | Size
  | Content
  | Other
deriving DecidableEq, Repr

/-- `notify::event::MetadataKind`: payload of `ModifyKind::Metadata(_)`. -/
inductive MetadataKind where
  | Any
  | AccessTime
  | WriteTime
  | Permissions
  | Ownership
  | Extended
  | Other
deriving DecidableEq, Repr

/-- `notify::event::ModifyKind`. -/
inductive ModifyKind where
  | Any
  | Data (change : DataChange)
  | Metadata (kind : MetadataKind)
  | Name (mode : RenameMode)
  | Other
deriving DecidableEq, Repr

/-- `notify::EventKind` (the constructors the watch callback can receive). -/
inductive EventKind where
  | Any
  | Access
  | Create
  | Modify (kind : ModifyKind)
  | Remove
  | Other
deriving DecidableEq, Repr

/-- `notify::Event`: the callback only inspects `kind`; `paths` is carried
along for faithfulness. -/
structure NotifyEvent where
  kind : EventKind
  paths : List String
deriving DecidableEq, Repr

/-- The watch callback closure inside `Playground::listen` (lines 93-102):
`if let Ok(event) = res { match event.kind { Modify(Name(_)) =>
proxy.send_event(Reload), _ => () } }`.  Returns the list of user events sent
to the event-loop channel for one delivered filesystem event. -/
def watch_callback (res : Except String NotifyEvent) : List UserEvents :=
  match res with
  | .ok event =>
    match event.kind with
    | .Modify (.Name _) => [UserEvents.Reload]
    | _ => []
  | .error _ => []

/-! ## Pipeline Builder (`Playground::create_pipeline`, lines 152-197) -/

/-- The compiled render pipeline handle; it is fully determined by the
fragment shader source it was built from (vertex stage, layout and format are
fixed for the whole run). -/
structure RenderPipeline where
  frag_source : String
deriving DecidableEq, Repr

/-- Sleep interval of the read-retry loop:
`spin_sleep::sleep(Duration::from_millis(200))` (line 164). -/
def read_retry_sleep_ms : ℕ := 200

/-- The `loop { match read_to_string(path) { Ok(s) => break s, Err(_) =>
sleep(200ms) } }` of `create_pipeline` (lines 159-167), with the successive
`read_to_string` outcomes given by the oracle `attempts` and explicit fuel.
`some (s, n)` means the loop broke with contents `s` after `n` failed attempts
(hence `n` sleeps); `none` means the fuel ran out, i.e. the loop is still
spinning. -/
def read_loop (attempts : ℕ → Option String) : ℕ → ℕ → Option (String × ℕ)
  | 0, _ => none
  | fuel + 1, i =>
    match attempts i with
    | some s => some (s, i)
    | none => read_loop attempts fuel (i + 1)

/-- `Playground::create_pipeline` (lines 152-197): read the fragment source
(retrying forever on read failure), build the shader module and the render
pipeline, and return `Ok(pipeline)`.  `device.create_shader_module` and
`device.create_render_pipeline` are infallible at the API level (their errors
surface asynchronously through the uncaptured-error callback), so the only
`return` the function has is the final `Ok(..)`. -/
def create_pipeline (attempts : ℕ → Option String) (fuel : ℕ) :
    Option (Except String RenderPipeline) :=
  match read_loop attempts fuel 0 with
  | none => none
  | some (frag_wgsl, _) => some (Except.ok { frag_source := frag_wgsl })

/-! ## Uniform state (`struct Uniforms`, lines 40-64) -/

/-- `struct Uniforms` with its `f32` fields modelled over `ℚ`
(lines 40-47). -/
structure Uniforms where
  mouse : ℚ × ℚ
  time : ℚ
  pad : ℚ
  window_size : ℚ × ℚ
deriving DecidableEq, Repr

/-- `Uniforms::default()` (lines 49-58). -/
def Uniforms.default : Uniforms :=
  { time := 0, mouse := (0, 0), pad := 0, window_size := (0, 0) }

/-- Little-endian byte serialization of one 32-bit word (the in-memory form of
one `f32` field, identified with its bit pattern). -/
def f32_le_bytes (bits : ℕ) : List ℕ :=
  [bits % 256, bits / 256 % 256, bits / 65536 % 256, bits / 16777216 % 256]

/-- The `#[repr(C)]` `Uniforms` struct at the representation level: each `f32`
field is its 32-bit pattern.  Field order follows the declaration:
`mouse: [f32; 2]`, `time: f32`, `pad: f32`, `window_size: [f32; 2]`. -/
structure UniformsBits where
  mouse_x : ℕ
  mouse_y : ℕ
  time : ℕ
  pad : ℕ
  window_size_x : ℕ
  window_size_y : ℕ
deriving DecidableEq, Repr

/-- `Uniforms::as_bytes` = `bytemuck::bytes_of(self)` (lines 60-64): the raw
in-memory bytes of the `#[repr(C)]` struct.  All six fields are 4-byte,
4-aligned `f32`s, so the C layout places them back to back with no interior or
trailing padding: the bytes are the concatenation of the fields' little-endian
words in declaration order. -/
def UniformsBits.as_bytes (u : UniformsBits) : List ℕ :=
  f32_le_bytes u.mouse_x ++ f32_le_bytes u.mouse_y ++ f32_le_bytes u.time ++
    f32_le_bytes u.pad ++ f32_le_bytes u.window_size_x ++
    f32_le_bytes u.window_size_y

/-! ## Error Sink (`device.on_uncaptured_error` closure, lines 242-256) -/

/-- `wgpu::Error`: the three variants, each carrying its human-readable
description. -/
inductive GpuError where
  | Validation (description : String)
  | OutOfMemory (description : String)
  | Internal (description : String)
deriving DecidableEq, Repr

/-- The `Display` text of a `wgpu::Error` (what `println!("{}", error)`
prints). -/
def GpuError.display : GpuError → String
  | .Validation d => d
  | .OutOfMemory d => d
  | .Internal d => d

/-- Side effects of the uncaptured-error callback. -/
inductive CallbackEffect where
  | sendEvent (e : UserEvents)
  | printLine (s : String)
deriving DecidableEq, Repr

/-- The label marker searched for in validation-error text (line 250). -/
def fragment_label_marker : String := "note: label = `Fragment shader`"

/-- `description.find("note: label = `Fragment shader`").is_some()`:
substring containment test. -/
def contains_fragment_marker (description : String) : Bool :=
  (description.splitOn fragment_label_marker).length != 1

/-- The `on_uncaptured_error` closure (lines 242-256): first send
`UserEvents::WGPUError` through the proxy, then, if the error is a
`Validation` error whose description contains the fragment-shader label
marker, print the description; a non-`Validation` error is printed via its
`Display`; a `Validation` error without the marker prints nothing. -/
def on_uncaptured_error (error : GpuError) : List CallbackEffect :=
  CallbackEffect.sendEvent UserEvents.WGPUError ::
    match error with
    | .Validation description =>
      if contains_fragment_marker description then
        [CallbackEffect.printLine description]
      else []
    | e => [CallbackEffect.printLine e.display]

/-! ## Render/Event Loop state and handlers -/

/-- Errors `surface.get_current_texture()` can fail with
(`wgpu::SurfaceError`). -/
inductive SurfaceError where
  | Timeout
  | Outdated
  | Lost
  | OutOfMemory
  | Other
deriving DecidableEq, Repr

/-- The mutable state the event-loop closure owns: the `error_state` local,
and the `Playground` fields the handlers mutate (`render_pipeline`,
`surface_config.width/height`, `uniforms`). -/
structure PlaygroundState where
  error_state : Bool
  render_pipeline : RenderPipeline
  surface_config_width : ℕ
  surface_config_height : ℕ
  uniforms : Uniforms
deriving DecidableEq, Repr

/-- Reified side effects of one event-handler invocation. -/
inductive Effect where
  | exitLoop
  | configureSurface (width height : ℕ)
  | requestRedraw
  | printLine (s : String)
  | sleep_ns (n : ℕ)
  | writeUniformBuffer (u : Uniforms)
  | setPipeline (p : RenderPipeline)
  | draw (vertices instances : ℕ)
  | submit
  | present
deriving DecidableEq, Repr

/-- `Duration::from_nanos(16_666_667)` (line 343): the ~60 Hz frame
interval. -/
def frame_time_ns : ℕ := 16666667

/-- One event as dispatched by the `event_loop.run` closure (lines 347-435).
Constructor arguments carry the environment data the corresponding handler
reads: the window scale factor for `Resized`, the window inner size for
`CursorMoved`, the surface-acquire outcome and current clock for
`RedrawRequested`, the `create_pipeline` outcome for `Reload`, and the frame
clock for `AboutToWait`. -/
inductive LoopEvent where
  | closeRequested
  | resized (scale_factor : ℚ) (w h : ℕ)
  | cursorMoved (win_w win_h : ℕ) (x y : ℚ)
  | redrawRequested (acquire : Except SurfaceError Unit) (elapsed_secs : ℚ)
  | userReload (build : Except String RenderPipeline)
  | userWGPUError
  | aboutToWait (elapsed_since_last_frame_ns : ℕ)
  | otherEvent
deriving DecidableEq, Repr

/-- The `match` inside `Playground::recreate_pipeline` (lines 139-150), with
the `create_pipeline` outcome passed in: `Ok(p)` replaces the active pipeline,
`Err(e)` prints `e` and leaves every field unchanged. -/
def recreate_pipeline (build : Except String RenderPipeline)
    (s : PlaygroundState) : PlaygroundState × List Effect :=
  match build with
  | .ok p => ({ s with render_pipeline := p }, [])
  | .error e => (s, [Effect.printLine e])

/-- `Playground::reload` (lines 81-87): print "Reload.", run
`recreate_pipeline`, then `window.request_redraw()` unconditionally. -/
def reload (build : Except String RenderPipeline) (s : PlaygroundState) :
    PlaygroundState × List Effect :=
  let r := recreate_pipeline build s
  (r.1, Effect.printLine "Reload." :: r.2 ++ [Effect.requestRedraw])

/-- `Playground::resize` (lines 199-209): when both dimensions are positive,
store them in the surface config, reconfigure the surface, set
`uniforms.window_size` to `new_size.to_logical(scale_factor)` (i.e. the
physical size divided by the scale factor), and request a redraw; otherwise do
nothing. -/
def resize (scale_factor : ℚ) (w h : ℕ) (s : PlaygroundState) :
    PlaygroundState × List Effect :=
  if 0 < w ∧ 0 < h then
    ({ s with
        surface_config_width := w
        surface_config_height := h
        uniforms := { s.uniforms with
          window_size := ((w : ℚ) / scale_factor, (h : ℚ) / scale_factor) } },
      [Effect.configureSurface w h, Effect.requestRedraw])
  else (s, [])

/-- The `event_loop.run` closure (lines 347-435): one dispatch step.  Returns
the updated loop state and the effects performed, in program order. -/
def step (event : LoopEvent) (s : PlaygroundState) :
    PlaygroundState × List Effect :=
  match event with
  | .closeRequested => (s, [Effect.exitLoop])
  | .resized scale_factor w h => resize scale_factor w h s
  | .cursorMoved win_w win_h x y =>
    let normalized_x : ℚ := x / (win_w : ℚ)
    let normalized_y : ℚ := y / (win_h : ℚ)
    ({ s with uniforms := { s.uniforms with
        mouse := (normalized_x * 2 - 1, -normalized_y * 2 + 1) } }, [])
  | .redrawRequested acquire elapsed_secs =>
    match acquire with
    | .error _ => (s, [])
    | .ok _ =>
      let u := { s.uniforms with time := elapsed_secs }
      ({ s with uniforms := u },
        [Effect.writeUniformBuffer u, Effect.setPipeline s.render_pipeline,
          Effect.draw 3 1, Effect.submit, Effect.present])
  | .userReload build => reload build { s with error_state := false }
  | .userWGPUError => ({ s with error_state := true }, [])
  | .aboutToWait elapsed =>
    if s.error_state = false then
      (s,
        (if elapsed < frame_time_ns then [Effect.sleep_ns (frame_time_ns - elapsed)]
          else []) ++ [Effect.requestRedraw])
    else (s, [])
  | .otherEvent => (s, [])

/-- Iterate `step` over a list of events (the state the loop reaches after
handling them all). -/
def run_trace (s : PlaygroundState) : List LoopEvent → PlaygroundState
  | [] => s
  | e :: rest => run_trace (step e s).1 rest

/-- The most recently successfully built pipeline along a trace (starting from
`p`): only a `userReload` carrying an `Ok` outcome updates it. -/
def last_built (p : RenderPipeline) : List LoopEvent → RenderPipeline
  | [] => p
  | .userReload (.ok q) :: rest => last_built q rest
  | _ :: rest => last_built p rest

/-- A concrete loop state used to instantiate theorems on explicit inputs
(the 600×600 startup window of `Playground::run`). -/
def sample_state : PlaygroundState :=
  { error_state := false
    render_pipeline := { frag_source := "fs0" }
    surface_config_width := 600
    surface_config_height := 600
    uniforms := Uniforms.default }

/-- The startup `match Self::create_pipeline(..)` in `Playground::run`
(lines 294-306): `Ok(p)` lets the loop start with `p`; `Err(e)` prints
"Could not start due to error: e" and returns before the loop runs. -/
def initial_build (build : Except String RenderPipeline) :
    Option RenderPipeline × List Effect :=
  match build with
  | .ok p => (some p, [])
  | .error e =>
    (none, [Effect.printLine ("Could not start due to error: " ++ e)])

/-- An example `read_to_string` outcome oracle: the first attempt fails, every
later attempt returns the shader source. -/
def read_attempts_example : ℕ → Option String
  | 0 => none
  | _ + 1 => some "frag"

/-! ## Theorems -/

/-- Claim C8: when acquiring the next surface image fails, the
`RedrawRequested` handler returns immediately: the whole loop state (uniforms,
pipeline, pause flag) is unchanged and no effect at all — no uniform upload,
no submit or present, no log line, no exit — is performed. -/
theorem c8_acquire_failure_skips_frame (s : PlaygroundState)
    (err : SurfaceError) (t : ℚ) :
    step (LoopEvent.redrawRequested (Except.error err) t) s = (s, []) := rfl

/-- Claim C9: the serialized `Uniforms` record is exactly 24 bytes, laid out
as `mouse.x`, `mouse.y`, `time`, `pad`, `window_size.x`, `window_size.y`, each
a 4-byte little-endian 32-bit float, with no trailing padding. -/
theorem c9_uniforms_layout (u : UniformsBits) :
    u.as_bytes.length = 24 ∧
    u.as_bytes.take 4 = f32_le_bytes u.mouse_x ∧
    (u.as_bytes.drop 4).take 4 = f32_le_bytes u.mouse_y ∧
    (u.as_bytes.drop 8).take 4 = f32_le_bytes u.time ∧
    (u.as_bytes.drop 12).take 4 = f32_le_bytes u.pad ∧
    (u.as_bytes.drop 16).take 4 = f32_le_bytes u.window_size_x ∧
    u.as_bytes.drop 20 = f32_le_bytes u.window_size_y :=
  ⟨rfl, rfl, rfl, rfl, rfl, rfl, rfl⟩

/-- Claim C2: the watch callback pushes exactly one `Reload` signal for every
successfully delivered event of kind `Modify(Name(_))` (a rename/modify of
the watched path), and pushes nothing for an event of any other kind or for
an error result. -/
theorem c2_watch_callback_signals :
    (∀ (event : NotifyEvent) (mode : RenameMode),
        event.kind = EventKind.Modify (ModifyKind.Name mode) →
        watch_callback (Except.ok event) = [UserEvents.Reload]) ∧
    (∀ event : NotifyEvent,
        (∀ mode, event.kind ≠ EventKind.Modify (ModifyKind.Name mode)) →
        watch_callback (Except.ok event) = []) ∧
    (∀ err : String, watch_callback (Except.error err) = []) := by
  refine ⟨?_, ?_, fun err => rfl⟩
  · intro event mode h
    obtain ⟨kind, paths⟩ := event
    simp only at h
    subst h
    rfl
  · intro event h
    obtain ⟨kind, paths⟩ := event
    cases kind <;> try rfl
    case Modify m =>
      cases m <;> try rfl
      case Name mode => exact absurd rfl (h mode)

/-- Witness for C2 on concrete events: a rename event yields one signal, a
metadata-only event yields none. -/
theorem c2_witness :
    watch_callback (Except.ok
        { kind := EventKind.Modify (ModifyKind.Name RenameMode.Any),
          paths := ["shader.wgsl"] }) = [UserEvents.Reload] ∧
    watch_callback (Except.ok
        { kind := EventKind.Modify (ModifyKind.Metadata MetadataKind.Any),
          paths := ["shader.wgsl"] }) = [] :=
  ⟨c2_watch_callback_signals.1 _ RenameMode.Any rfl,
    c2_watch_callback_signals.2.1 _ (fun mode h => by cases h)⟩

/-- Claim C3: the uncaptured-error callback sends the `WGPUError` event first,
before and regardless of any classification of the error; handling that event
sets the pause flag; and an `AboutToWait` tick handled while the pause flag is
set performs no effect at all, in particular requests no redraw. -/
theorem c3_gpu_error_pauses_rendering :
    (∀ error : GpuError,
        (on_uncaptured_error error).head? =
          some (CallbackEffect.sendEvent UserEvents.WGPUError)) ∧
    (∀ s : PlaygroundState,
        (step LoopEvent.userWGPUError s).1.error_state = true) ∧
    (∀ (s : PlaygroundState) (t : ℕ), s.error_state = true →
        (step (LoopEvent.aboutToWait t) s).2 = []) := by
  refine ⟨fun error => rfl, fun s => rfl, fun s t h => ?_⟩
  simp [step, h]

/-- Witness for C3 at a concrete paused state and tick. -/
theorem c3_witness :
    (step (LoopEvent.aboutToWait 0)
        { sample_state with error_state := true }).2 = [] :=
  c3_gpu_error_pauses_rendering.2.2 { sample_state with error_state := true }
    0 rfl

/-- Claim C4: handling a `Reload` user event clears the pause flag whatever
the rebuild outcome is, and no event other than a `Reload` user event ever
clears a set pause flag. -/
theorem c4_reload_clears_pause :
    (∀ (s : PlaygroundState) (build : Except String RenderPipeline),
        (step (LoopEvent.userReload build) s).1.error_state = false) ∧
    (∀ (s : PlaygroundState) (event : LoopEvent), s.error_state = true →
        (∀ build, event ≠ LoopEvent.userReload build) →
        (step event s).1.error_state = true) := by
  constructor
  · intro s build
    cases build <;> rfl
  · intro s event h1 h2
    cases event with
    | closeRequested => exact h1
    | resized scale_factor w h =>
      simp only [step, resize]
      split <;> exact h1
    | cursorMoved a b x y => exact h1
    | redrawRequested acquire t => cases acquire <;> exact h1
    | userReload build => exact absurd rfl (h2 build)
    | userWGPUError => rfl
    | aboutToWait t =>
      simp only [step]
      split <;> exact h1
    | otherEvent => exact h1

/-- Witness for C4: a failed rebuild still clears a set pause flag, and a
`CloseRequested` event (an arbitrary non-reload event) does not clear it. -/
theorem c4_witness :
    (step (LoopEvent.userReload (Except.error "compile error"))
        { sample_state with error_state := true }).1.error_state = false ∧
    (step LoopEvent.closeRequested
        { sample_state with error_state := true }).1.error_state = true :=
  ⟨c4_reload_clears_pause.1 _ _,
    c4_reload_clears_pause.2 _ _ rfl (fun build h => by cases h)⟩

/-- Claim C6: a `CursorMoved` event at `(x, y)` with inner size `(W, H)` sets
`uniforms.mouse` to `(2x/W - 1, -2y/H + 1)`; `(0,0)` maps to `(-1,1)`,
`(W,H)` maps to `(1,-1)`, and the window center maps to `(0,0)`. -/
theorem c6_cursor_normalization (s : PlaygroundState) (W H : ℕ) (x y : ℚ)
    (hW : 0 < W) (hH : 0 < H) :
    (step (LoopEvent.cursorMoved W H x y) s).1.uniforms.mouse =
      (2 * x / (W : ℚ) - 1, -(2 * y / (H : ℚ)) + 1) ∧
    ((x, y) = (0, 0) →
      (step (LoopEvent.cursorMoved W H x y) s).1.uniforms.mouse = (-1, 1)) ∧
    ((x, y) = ((W : ℚ), (H : ℚ)) →
      (step (LoopEvent.cursorMoved W H x y) s).1.uniforms.mouse = (1, -1)) ∧
    ((x, y) = ((W : ℚ) / 2, (H : ℚ) / 2) →
      (step (LoopEvent.cursorMoved W H x y) s).1.uniforms.mouse = (0, 0)) := by
  have hW0 : (W : ℚ) ≠ 0 := Nat.cast_ne_zero.mpr hW.ne'
  have hH0 : (H : ℚ) ≠ 0 := Nat.cast_ne_zero.mpr hH.ne'
  refine ⟨?_, ?_, ?_, ?_⟩
  · simp only [step, Prod.mk.injEq]
    constructor <;> ring
  · intro hxy
    injection hxy with hx hy
    subst hx; subst hy
    simp [step]
  · intro hxy
    injection hxy with hx hy
    subst hx; subst hy
    simp only [step, Prod.mk.injEq]
    rw [div_self hW0, div_self hH0]
    norm_num
  · intro hxy
    injection hxy with hx hy
    subst hx; subst hy
    simp only [step, Prod.mk.injEq]
    have h1 : (W : ℚ) / 2 / (W : ℚ) = 1 / 2 := by
      rw [div_div, mul_comm, ← div_div, div_self hW0]
    have h2 : (H : ℚ) / 2 / (H : ℚ) = 1 / 2 := by
      rw [div_div, mul_comm, ← div_div, div_self hH0]
    rw [h1, h2]
    norm_num

/-- Witness for C6: in a 2×2 window the center pixel `(1,1)` maps to
`(0,0)`. -/
theorem c6_witness :
    (step (LoopEvent.cursorMoved 2 2 1 1) sample_state).1.uniforms.mouse =
      (0, 0) := by
  have h := c6_cursor_normalization sample_state 2 2 1 1 (by norm_num)
    (by norm_num)
  exact h.2.2.2 (by norm_num)

/-- Counterexample to claim C7 as stated: on a scale-factor-2 display,
resizing to physical size 100×100 sets `uniforms.window_size` to the logical
size `(50, 50)`, not to the new size `(100, 100)`. -/
theorem c7_counterexample :
    (step (LoopEvent.resized 2 100 100) sample_state).1.uniforms.window_size ≠
      ((100 : ℚ), (100 : ℚ)) := by
  simp [step, resize, sample_state, Uniforms.default]
  norm_num

/-- Claim C7 (amended): a resize to positive `(w, h)` stores `(w, h)` in the
surface config and sets `uniforms.window_size` to the logical size
`(w / scale_factor, h / scale_factor)`; a resize with a zero dimension leaves
the whole state unchanged and performs no effect. -/
theorem c7_resize_updates (s : PlaygroundState) (scale_factor : ℚ)
    (w h : ℕ) :
    (0 < w → 0 < h →
      step (LoopEvent.resized scale_factor w h) s =
        ({ s with
            surface_config_width := w
            surface_config_height := h
            uniforms := { s.uniforms with
              window_size :=
                ((w : ℚ) / scale_factor, (h : ℚ) / scale_factor) } },
          [Effect.configureSurface w h, Effect.requestRedraw])) ∧
    (w = 0 ∨ h = 0 →
      step (LoopEvent.resized scale_factor w h) s = (s, [])) := by
  constructor
  · intro hw hh
    simp [step, resize, hw, hh]
  · intro hzero
    have : ¬(0 < w ∧ 0 < h) := by omega
    simp [step, resize, this]

/-- Witness for C7 (amended) at concrete inputs: scale factor 2,
100×100 resize, and a zero-width resize. -/
theorem c7_witness :
    (step (LoopEvent.resized 2 100 100) sample_state).1.uniforms.window_size =
      (50, 50) ∧
    step (LoopEvent.resized 2 0 100) sample_state = (sample_state, []) := by
  refine ⟨?_, (c7_resize_updates sample_state 2 0 100).2 (Or.inl rfl)⟩
  have h := (c7_resize_updates sample_state 2 100 100).1 (by norm_num)
    (by norm_num)
  rw [h]
  norm_num

/-- Claim C1: a `Reload` whose rebuild fails leaves the active pipeline
handle unchanged; a redraw is requested whatever the rebuild outcome; and
along any event trace the active handle is always the most recently
successfully built pipeline (the initial one if no rebuild succeeded yet), in
particular at the start of every `RedrawRequested` handling. -/
theorem c1_active_handle_invariant :
    (∀ (s : PlaygroundState) (e : String),
        (step (LoopEvent.userReload (Except.error e)) s).1.render_pipeline =
          s.render_pipeline) ∧
    (∀ (s : PlaygroundState) (build : Except String RenderPipeline),
        Effect.requestRedraw ∈ (step (LoopEvent.userReload build) s).2) ∧
    (∀ (s : PlaygroundState) (events : List LoopEvent),
        (run_trace s events).render_pipeline =
          last_built s.render_pipeline events) := by
  refine ⟨fun s e => rfl, ?_, ?_⟩
  · intro s build
    cases build <;> simp [step, reload, recreate_pipeline]
  · intro s events
    induction events generalizing s with
    | nil => rfl
    | cons e rest ih =>
      rw [run_trace, ih]
      cases e with
      | closeRequested => rfl
      | resized scale_factor w h =>
        have hp : (step (LoopEvent.resized scale_factor w h) s).1.render_pipeline =
            s.render_pipeline := by
          simp only [step, resize]
          split <;> rfl
        rw [hp]
        rfl
      | cursorMoved a b x y => rfl
      | redrawRequested acquire t => cases acquire <;> rfl
      | userReload build => cases build <;> rfl
      | userWGPUError => rfl
      | aboutToWait t =>
        have hp : (step (LoopEvent.aboutToWait t) s).1.render_pipeline =
            s.render_pipeline := by
          simp only [step]
          split <;> rfl
        rw [hp]
        rfl
      | otherEvent => rfl

/-- Soundness of the read-retry loop: a successful run starting at attempt
`i` returns the contents of the first successful attempt at or after `i`, and
`n` counts the failed attempts before it. -/
theorem read_loop_first_success (attempts : ℕ → Option String) :
    ∀ (fuel i : ℕ) (s : String) (n : ℕ),
      read_loop attempts fuel i = some (s, n) →
      i ≤ n ∧ attempts n = some s ∧
        ∀ m, i ≤ m → m < n → attempts m = none := by
  intro fuel
  induction fuel with
  | zero =>
    intro i s n h
    simp [read_loop] at h
  | succ fuel ih =>
    intro i s n h
    rw [read_loop] at h
    split at h
    · next s0 heq =>
        obtain ⟨rfl, rfl⟩ : s0 = s ∧ i = n := by
          simpa using h
        exact ⟨le_refl _, heq, fun m hm1 hm2 => absurd hm1 (by omega)⟩
    · next heq =>
        obtain ⟨h1, h2, h3⟩ := ih (i + 1) s n h
        refine ⟨by omega, h2, fun m hm1 hm2 => ?_⟩
        rcases Nat.eq_or_lt_of_le hm1 with rfl | hlt
        · exact heq
        · exact h3 m hlt hm2

/-- Completeness of the read-retry loop: with enough fuel to reach a
successful attempt, the loop breaks. -/
theorem read_loop_reaches_success (attempts : ℕ → Option String) :
    ∀ (fuel i : ℕ), (∃ j, j < fuel ∧ (attempts (i + j)).isSome) →
      (read_loop attempts fuel i).isSome := by
  intro fuel
  induction fuel with
  | zero =>
    rintro i ⟨j, hj, _⟩
    omega
  | succ fuel ih =>
    rintro i ⟨j, hj, hsome⟩
    rw [read_loop]
    split
    · simp
    · next heq =>
        apply ih
        rcases j with _ | j
        · rw [Nat.add_zero, heq] at hsome
          simp at hsome
        · exact ⟨j, by omega, by
            rw [show i + 1 + j = i + (j + 1) by omega]
            exact hsome⟩

/-- Claim C5: the read step of the pipeline builder terminates exactly when
some read attempt succeeds (no retry bound exists); it then returns the
contents of the first successful attempt, having slept the fixed 200ms
interval once per preceding failed attempt; and when it terminates the
builder surfaces no read error to its caller — the result is always `Ok`. -/
theorem c5_read_retry_loop (attempts : ℕ → Option String) :
    ((∃ fuel s n, read_loop attempts fuel 0 = some (s, n)) ↔
      ∃ n, (attempts n).isSome) ∧
    (∀ fuel s n, read_loop attempts fuel 0 = some (s, n) →
        attempts n = some s ∧ ∀ m, m < n → attempts m = none) ∧
    read_retry_sleep_ms = 200 ∧
    (∀ fuel r, create_pipeline attempts fuel = some r →
        ∃ p : RenderPipeline, r = Except.ok p) := by
  refine ⟨⟨?_, ?_⟩, ?_, rfl, ?_⟩
  · rintro ⟨fuel, s, n, h⟩
    obtain ⟨-, h2, -⟩ := read_loop_first_success attempts fuel 0 s n h
    exact ⟨n, by rw [h2]; rfl⟩
  · rintro ⟨n, hn⟩
    have h := read_loop_reaches_success attempts (n + 1) 0
      ⟨n, by omega, by rwa [Nat.zero_add]⟩
    obtain ⟨⟨s, m⟩, hm⟩ := Option.isSome_iff_exists.mp h
    exact ⟨n + 1, s, m, hm⟩
  · intro fuel s n h
    obtain ⟨-, h2, h3⟩ := read_loop_first_success attempts fuel 0 s n h
    exact ⟨h2, fun m hm => h3 m (Nat.zero_le m) hm⟩
  · intro fuel r h
    rw [create_pipeline] at h
    split at h
    · exact absurd h (by simp)
    · next frag k heq =>
        exact ⟨{ frag_source := frag }, by simpa using h.symm⟩

/-- Witness for C5: with an oracle that fails once and then succeeds, the
loop terminates after exactly one failed attempt and returns the contents of
attempt 1. -/
theorem c5_witness :
    (read_attempts_example 1 = some "frag" ∧
      ∀ m, m < 1 → read_attempts_example m = none) ∧
    (∃ n, (read_attempts_example n).isSome) :=
  ⟨(c5_read_retry_loop read_attempts_example).2.1 2 "frag" 1 rfl,
    (c5_read_retry_loop read_attempts_example).1.mp ⟨2, "frag", 1, rfl⟩⟩

/-- Claim C10: whenever `create_pipeline` terminates, its result is the `Ok`
variant — there is no input on which it returns `Err`; consequently the error
arm of `recreate_pipeline` (keep state, print the error) and the startup arm
that prints "Could not start due to error" are never taken on an outcome
actually produced by `create_pipeline`. -/
theorem c10_create_pipeline_infallible (attempts : ℕ → Option String)
    (fuel : ℕ) (r : Except String RenderPipeline)
    (h : create_pipeline attempts fuel = some r) :
    ∃ p : RenderPipeline, r = Except.ok p ∧
      (∀ s : PlaygroundState,
        recreate_pipeline r s = ({ s with render_pipeline := p }, [])) ∧
      initial_build r = (some p, []) := by
  rw [create_pipeline] at h
  split at h
  · exact absurd h (by simp)
  · next frag k heq =>
      obtain rfl : Except.ok ({ frag_source := frag } : RenderPipeline) = r := by
        simpa using h
      exact ⟨{ frag_source := frag }, rfl, fun s => rfl, rfl⟩

/-- Witness for C10: a concrete one-attempt oracle; the builder returns `Ok`
and `recreate_pipeline` takes the success arm on it. -/
theorem c10_witness :
    recreate_pipeline (Except.ok { frag_source := "frag" }) sample_state =
      ({ sample_state with render_pipeline := { frag_source := "frag" } },
        []) := by
  obtain ⟨p, hp, hrec, -⟩ := c10_create_pipeline_infallible
    (fun _ => some "frag") 1 (Except.ok { frag_source := "frag" }) rfl
  injection hp with hp'
  rw [hp'] at hrec ⊢
  exact hrec sample_state

end WgslPlayground
